import Mathlib

/-!
Shallow embedding of the workflow builder core in src/main.py: the element
record, the session operations (add element, delete element, per-type config
update, clear), the one-pass executor, and the JSON export/import functions,
together with theorems settling the specification claims against them.
-/

/-- JSON-compatible values held in an element's config mapping, in the
execution results mapping and in the `output` field: strings, integers,
booleans and Python None / JSON null. -/
inductive Value where
  | vStr : String → Value
  | vInt : Int → Value
  | vBool : Bool → Value
  | vNull : Value
deriving DecidableEq

/-- Python str() of a value, as applied by the f-string interpolations in
src/main.py when a config value is spliced into a result message. -/
def pyStr : Value → String
  | .vStr s => s
  | .vInt n => toString n
  | .vBool true => "True"
  | .vBool false => "False"
  | .vNull => "None"

/-- The 2D canvas coordinate stored in an element's position field. -/
structure Coord where
  x : Int
  y : Int
deriving DecidableEq

/-- The element record built by WorkflowElement.__init__ (src/main.py lines
104-111) and mutated in place by the UI collaborator and the executor.
`output` is None at creation and is never written by any function in
src/main.py. -/
structure WorkflowElement where
  id : String
  type : String
  position : Coord
  config : List (String × Value)
  status : String
  output : Value
deriving DecidableEq

/-- The Streamlit session state slots the core manipulates: the ordered
element sequence and the stored execution results, plus the state of the
fresh-id supply (uuid.uuid4() is modelled as an injective stream of
identifiers indexed by a per-session creation counter). -/
structure SessionState where
  workflow_elements : List WorkflowElement
  execution_results : List (String × Value)
  next_uuid : Nat
deriving DecidableEq

/-- Deterministic model of the uuid.uuid4() fresh-id stream: the n-th id
drawn in a session. Injectivity stands in for uuid uniqueness. -/
def mkUuid (n : Nat) : String :=
  "uuid-" ++ String.mk (List.replicate n 'x' )

/-- add_element_to_workflow (src/main.py lines 174-179): constructs a new
element with a fresh id, status pending and empty config, places it at
x = 100 times the current element count, y = 50, and appends it. -/
def add_element_to_workflow (element_type : String) (s : SessionState) : SessionState :=
  let element : WorkflowElement :=
    { id := mkUuid s.next_uuid
      type := element_type
      position := { x := 100 * (s.workflow_elements.length : Int), y := 50 }
      config := []
      status := "pending"
      output := .vNull }
  { s with workflow_elements := s.workflow_elements ++ [element],
           next_uuid := s.next_uuid + 1 }

/-- Whether an integer index denotes a position of the ordered sequence of
length n under Python list indexing: a negative index counts from the end. -/
def denotes_position (index : Int) (n : Nat) : Bool :=
  let j := if index < 0 then index + n else index
  0 ≤ j && j < n

/-- The delete action in render_workflow_element (src/main.py line 236):
Python list.pop(index) on the element sequence. An index denoting no
position raises IndexError before any mutation, so the state is returned
unchanged together with the error. -/
def remove_element (index : Int) (s : SessionState) : SessionState × Option String :=
  let n := s.workflow_elements.length
  let j := if index < 0 then index + n else index
  if denotes_position index n then
    ({ s with workflow_elements := s.workflow_elements.eraseIdx j.toNat }, none)
  else
    (s, some "IndexError: pop index out of range")

/-- The text_input branch of render_element_config (src/main.py lines
278-284): stores label and entered text in config and sets status to ready
only when the entered text is truthy (non-empty); there is no else branch,
so an empty text leaves the previous status in place. -/
def update_text_input (label value : String) (e : WorkflowElement) : WorkflowElement :=
  { e with config := [("label", .vStr label), ("value", .vStr value)],
           status := if value = "" then e.status else "ready" }

/-- The Clear action (src/main.py lines 161-164): empties the element
sequence and discards the stored results. -/
def clear_workflow (s : SessionState) : SessionState :=
  { s with workflow_elements := [], execution_results := [] }

/-- The element types sharing the produce-the-config-value executor branch
(src/main.py line 408). -/
def is_input_type (t : String) : Bool :=
  t = "text_input" || t = "number_input" || t = "date_input" ||
  t = "checkbox" || t = "slider" || t = "selectbox"

/-- One element's execution (the dispatch inside execute_workflow,
src/main.py lines 399-436): returns the result value recorded in the
results mapping and the terminal status written to the element. The
conditional branch reads config with a bare subscript, so a missing
true_action key raises KeyError, which the surrounding try/except converts
to status error and an "Error: ..." result. -/
def exec_element (e : WorkflowElement) : Value × String :=
  if e.type = "pdf_upload" then
    match e.config.lookup "filename" with
    | some fn => (.vStr ("PDF processed: " ++ pyStr fn), "ready")
    | none => (.vStr "No PDF uploaded", "error")
  else if is_input_type e.type then
    ((e.config.lookup "value").getD (.vStr "No value"), "ready")
  else if e.type = "conditional" then
    match e.config.lookup "true_action" with
    | some a => (.vStr ("Executed: " ++ pyStr a), "ready")
    | none => (.vStr "Error: \x27true_action\x27", "error")
  else if e.type = "data_display" then
    (.vStr "Data displayed successfully", "ready")
  else if e.type = "api_call" then
    (.vStr ("API call to " ++ pyStr ((e.config.lookup "url").getD (.vStr "undefined")) ++ " completed"), "ready")
  else if e.type = "email" then
    (.vStr ("Email sent to " ++ pyStr ((e.config.lookup "recipient").getD (.vStr "undefined"))), "ready")
  else
    (.vStr (e.type ++ " executed successfully"), "ready")

/-- Assignment into a Python dict modelled on an insertion-ordered
association list: an existing key is overwritten in place, a new key is
appended. -/
def dict_insert (m : List (String × Value)) (k : String) (v : Value) : List (String × Value) :=
  if m.any (fun p => p.1 = k) then
    m.map (fun p => if p.1 = k then (k, v) else p)
  else m ++ [(k, v)]

/-- The executor loop of execute_workflow (src/main.py lines 391-436):
walks the sequence in order, writes each element's terminal status in
place and records its result under its id in the results dict. -/
def run_elements : List WorkflowElement → List (String × Value) →
    List WorkflowElement × List (String × Value)
  | [], acc => ([], acc)
  | e :: rest, acc =>
    let r := exec_element e
    let p := run_elements rest (dict_insert acc e.id r.1)
    ({ e with status := r.2 } :: p.1, p.2)

/-- execute_workflow (src/main.py lines 381-438): with no elements it warns
and returns early, leaving the stored results untouched; otherwise it runs
every element and overwrites the stored results with the fresh mapping. -/
def execute_workflow (s : SessionState) : SessionState :=
  if s.workflow_elements.isEmpty then s
  else
    let p := run_elements s.workflow_elements []
    { s with workflow_elements := p.1, execution_results := p.2 }

/-- The dictionary produced for one element by WorkflowElement.to_dict
(src/main.py lines 113-121), and, on the import side, an element object of
an arbitrary uploaded document: every field may be absent. -/
structure ElementDict where
  id : Option String
  type : Option String
  position : Option Coord
  config : Option (List (String × Value))
  status : Option String
  output : Option Value
deriving DecidableEq

/-- The serialized workflow document of export_workflow / import_workflow. -/
structure WorkflowDocument where
  elements : List ElementDict
  created_at : String
  version : String
deriving DecidableEq

/-- WorkflowElement.to_dict (src/main.py lines 113-121): every field is
present in the produced dictionary. -/
def to_dict (e : WorkflowElement) : ElementDict :=
  { id := some e.id, type := some e.type, position := some e.position,
    config := some e.config, status := some e.status, output := some e.output }

/-- export_workflow (src/main.py lines 449-455): serializes the element
sequence with the current timestamp and fixed version 1.0. -/
def export_workflow (now : String) (s : SessionState) : WorkflowDocument :=
  { elements := s.workflow_elements.map to_dict, created_at := now, version := "1.0" }

/-- Reconstruction of one element inside import_workflow (src/main.py lines
475-479): position, config, status and output fall back to their defaults
when absent. The WorkflowElement constructor (line 106) replaces a falsy
(empty) given id by a freshly drawn uuid, passed here as fresh. Only
applied after the required id and type fields were read. -/
def build_element (fresh : String) (d : ElementDict) : WorkflowElement :=
  { id := if d.id.getD "" = "" then fresh else d.id.getD ""
    type := d.type.getD ""
    position := d.position.getD { x := 0, y := 0 }
    config := d.config.getD []
    status := d.status.getD "pending"
    output := d.output.getD .vNull }

/-- The element loop of import_workflow, threading the fresh-id supply
index: elements are appended one by one; a missing type or id field raises
KeyError (type is read first), which aborts the loop, leaving the elements
appended so far in place and producing a caught, displayed error; an
element whose id is present but empty consumes one fresh uuid. -/
def import_elements : List ElementDict → Nat → (List WorkflowElement × Option String) × Nat
  | [], k => (([], none), k)
  | d :: rest, k =>
    match d.type with
    | none => (([], some "KeyError: type"), k)
    | some _ =>
      match d.id with
      | none => (([], some "KeyError: id"), k)
      | some _ =>
        let k2 := if d.id.getD "" = "" then k + 1 else k
        let q := import_elements rest k2
        ((build_element (mkUuid k) d :: q.1.1, q.1.2), q.2)

/-- import_workflow (src/main.py lines 465-486): clears the element
sequence, then reloads it from the document inside a try/except; on error
the partially rebuilt sequence stays committed and the error is shown as a
non-fatal message. Stored results are untouched. -/
def import_workflow (doc : WorkflowDocument) (s : SessionState) : SessionState × Option String :=
  let q := import_elements doc.elements s.next_uuid
  ({ s with workflow_elements := q.1.1, next_uuid := q.2 }, q.1.2)

/-- An element dictionary carrying both required fields of the import. -/
def wellformed_dict (d : ElementDict) : Bool :=
  d.type.isSome && d.id.isSome

/-- The status enumeration of the data model (the four values rendered by
the status indicator, src/main.py lines 210-215). -/
def valid_status (st : String) : Bool :=
  st = "pending" || st = "ready" || st = "processing" || st = "error"

/-- Every element of the sequence carries one of the four statuses. -/
def all_valid (es : List WorkflowElement) : Prop :=
  ∀ e ∈ es, valid_status e.status = true

/-- The projection of an element onto everything except its status, used to
state that execution mutates nothing else. -/
def non_status_fields (e : WorkflowElement) :
    String × String × Coord × List (String × Value) × Value :=
  (e.id, e.type, e.position, e.config, e.output)

/-- The empty session created at session start (src/main.py lines 96-102). -/
def fresh_session : SessionState :=
  { workflow_elements := [], execution_results := [], next_uuid := 0 }

/-- The session obtained by a sequence of add-element clicks. -/
def build_workflow (tys : List String) : SessionState :=
  tys.foldl (fun st t => add_element_to_workflow t st) fresh_session

/-- A concrete element used by the concrete-input theorems below: a timer
element named a, freshly added (pending, empty config). -/
def sample_timer : WorkflowElement :=
  { id := "a", type := "timer", position := { x := 0, y := 0 },
    config := [], status := "pending", output := .vNull }

/-- A concrete conditional element with all four config fields populated. -/
def sample_conditional_full : WorkflowElement :=
  { id := "c1", type := "conditional", position := { x := 0, y := 0 },
    config := [("condition_type", .vStr "equals"), ("condition_value", .vStr "5"),
               ("true_action", .vStr "X"), ("false_action", .vStr "Y")],
    status := "ready", output := .vNull }

/-- A concrete conditional element whose config holds no true_action. -/
def sample_conditional_empty : WorkflowElement :=
  { id := "c2", type := "conditional", position := { x := 0, y := 0 },
    config := [], status := "ready", output := .vNull }

/-- A concrete pdf_upload element with no uploaded file. -/
def sample_pdf_bare : WorkflowElement :=
  { id := "p1", type := "pdf_upload", position := { x := 0, y := 0 },
    config := [], status := "pending", output := .vNull }

/-- A concrete pdf_upload element with an attached file a.pdf. -/
def sample_pdf_loaded : WorkflowElement :=
  { id := "p2", type := "pdf_upload", position := { x := 0, y := 0 },
    config := [("filename", .vStr "a.pdf"), ("size", .vInt 100)],
    status := "ready", output := .vNull }

/-- A concrete text_input element that already reached status ready. -/
def sample_text_ready : WorkflowElement :=
  { id := "t1", type := "text_input", position := { x := 0, y := 0 },
    config := [("label", .vStr "Enter text"), ("value", .vStr "hi")],
    status := "ready", output := .vNull }

/-- A concrete text_input element still pending. -/
def sample_text_pending : WorkflowElement :=
  { id := "t2", type := "text_input", position := { x := 0, y := 0 },
    config := [], status := "pending", output := .vNull }

/-- The document obtained by importing an element whose stored status is
not one of the four enumerated values. -/
def sample_bad_status_doc : WorkflowDocument :=
  { elements := [{ id := some "a", type := some "timer", position := none,
                   config := none, status := some "banana", output := none }],
    created_at := "t", version := "1.0" }

/-- A document whose second element is missing the required id field. -/
def sample_malformed_doc : WorkflowDocument :=
  { elements := [to_dict sample_timer,
                 { id := none, type := some "chart", position := none,
                   config := none, status := none, output := none },
                 to_dict sample_text_ready],
    created_at := "t", version := "1.0" }

/-- A session with a non-empty element sequence, distinct element ids and a
stale stored results mapping. -/
def sample_run_session : SessionState :=
  { workflow_elements := [sample_pdf_loaded, sample_timer],
    execution_results := [("stale", .vNull)], next_uuid := 5 }

/-- A session whose empty element sequence coexists with non-empty stored
results from an earlier run. -/
def sample_stale_session : SessionState :=
  { workflow_elements := [], execution_results := [("x", .vStr "old")], next_uuid := 0 }

/-- A session whose two elements share the id a, as an imported document can
produce. -/
def sample_dup_session : SessionState :=
  { workflow_elements := [sample_timer, { sample_timer with type := "chart" }],
    execution_results := [], next_uuid := 0 }

/-- The element add_element_to_workflow constructs when the sequence already
holds pos elements and the id supply stands at index idx. -/
def new_element (pos idx : Nat) (t : String) : WorkflowElement :=
  { id := mkUuid idx, type := t,
    position := { x := 100 * (pos : Int), y := 50 },
    config := [], status := "pending", output := .vNull }

/-- The elements appended by a sequence of add-element clicks starting from
pos existing elements and id-supply index idx. -/
def added_elements (pos idx : Nat) : List String → List WorkflowElement
  | [] => []
  | t :: ts => new_element pos idx t :: added_elements (pos + 1) (idx + 1) ts

theorem mkUuid_injective (m n : Nat) (h : mkUuid m = mkUuid n) : m = n := by
  have hl : (mkUuid m).length = (mkUuid n).length := by rw [h]
  simpa [mkUuid, String.length_append, String.length] using hl

theorem build_to_dict (fresh : String) (e : WorkflowElement) (h : e.id ≠ "") :
    build_element fresh (to_dict e) = e := by
  unfold build_element to_dict
  simp [h]

theorem import_elements_map_to_dict (es : List WorkflowElement) (k : Nat)
    (h : ∀ e ∈ es, e.id ≠ "") :
    import_elements (es.map to_dict) k = ((es, none), k) := by
  induction es generalizing k with
  | nil => rfl
  | cons e rest ih =>
    have he : e.id ≠ "" := h e (List.mem_cons_self e rest)
    show ((build_element (mkUuid k) (to_dict e) ::
            (import_elements (rest.map to_dict)
              (if (to_dict e).id.getD "" = "" then k + 1 else k)).1.1,
          (import_elements (rest.map to_dict)
              (if (to_dict e).id.getD "" = "" then k + 1 else k)).1.2),
         (import_elements (rest.map to_dict)
              (if (to_dict e).id.getD "" = "" then k + 1 else k)).2) = ((e :: rest, none), k)
    have hid : ¬ ((to_dict e).id.getD "" = "") := by
      simp [to_dict, he]
    rw [if_neg hid]
    rw [ih k (fun x hx => h x (List.mem_cons_of_mem e hx)), build_to_dict (mkUuid k) e he]

/-- Claim C2: exporting a workflow and importing the produced document
reproduces the element sequence exactly (hence the same element count and,
per element, the same id, type, config, status and position), with no error
reported. The hypothesis that no element carries an empty id holds for
every element the program creates (uuids and accepted imported ids are all
non-empty); an empty id would be replaced by a fresh uuid on import. -/
theorem export_import_roundtrip (now : String) (s s0 : SessionState)
    (h : ∀ e ∈ s.workflow_elements, e.id ≠ "") :
    (import_workflow (export_workflow now s) s0).1.workflow_elements = s.workflow_elements ∧
    (import_workflow (export_workflow now s) s0).2 = none := by
  have step := import_elements_map_to_dict s.workflow_elements s0.next_uuid h
  simp [import_workflow, export_workflow, step]

theorem export_import_roundtrip_witness :
    (import_workflow (export_workflow "t" sample_run_session)
      fresh_session).1.workflow_elements = sample_run_session.workflow_elements ∧
    (import_workflow (export_workflow "t" sample_run_session) fresh_session).2 = none := by
  exact export_import_roundtrip "t" sample_run_session fresh_session (by decide)

theorem run_elements_fields (es : List WorkflowElement) (acc : List (String × Value)) :
    ((run_elements es acc).1).map non_status_fields = es.map non_status_fields := by
  induction es generalizing acc with
  | nil => rfl
  | cons e rest ih => simp [run_elements, non_status_fields, ih]

/-- Claim C10: a run changes nothing about the element sequence except the
status fields: the projections onto id, type, position, config and output
agree elementwise before and after, so count and order are preserved too. -/
theorem execute_workflow_frame (s : SessionState) :
    ((execute_workflow s).workflow_elements).map non_status_fields =
      (s.workflow_elements).map non_status_fields := by
  unfold execute_workflow
  split
  · rfl
  · exact run_elements_fields _ _

/-- Claim C3 (amended): a conditional element whose config holds a
true_action never evaluates its condition: whatever the condition_type,
condition_value and false_action entries hold, the result is
"Executed: " followed by the true_action and the terminal status is ready. -/
theorem conditional_executes_true_action (e : WorkflowElement)
    (ht : e.type = "conditional") (a : Value)
    (ha : e.config.lookup "true_action" = some a) :
    exec_element e = (.vStr ("Executed: " ++ pyStr a), "ready") := by
  simp [exec_element, ht, is_input_type, ha]

theorem conditional_executes_true_action_witness :
    exec_element sample_conditional_full = (.vStr "Executed: X", "ready") := by
  exact conditional_executes_true_action sample_conditional_full rfl (.vStr "X") rfl

/-- Claim C3 fails as stated for every config: a conditional element whose
config lacks the true_action key (reachable by importing such a document)
hits a KeyError, so the run records an error result and terminal status
error, not ready. -/
theorem conditional_empty_config_counterexample :
    exec_element sample_conditional_empty = (.vStr "Error: \x27true_action\x27", "error") ∧
    ("error" : String) ≠ "ready" := by
  exact ⟨rfl, by decide⟩

/-- Claim C4: deleting at an index that denotes no position of the element
sequence (Python list indexing, negative indices counting from the end)
fails with IndexError and returns the session state unchanged, elements and
order included. -/
theorem remove_element_invalid_index (i : Int) (s : SessionState)
    (h : denotes_position i s.workflow_elements.length = false) :
    remove_element i s = (s, some "IndexError: pop index out of range") := by
  unfold remove_element
  simp [h]

theorem remove_element_invalid_index_witness :
    denotes_position 1 1 = false ∧
    remove_element 1
      { workflow_elements := [sample_timer], execution_results := [], next_uuid := 1 } =
      ({ workflow_elements := [sample_timer], execution_results := [], next_uuid := 1 },
       some "IndexError: pop index out of range") :=
  ⟨by decide, remove_element_invalid_index 1 _ (by decide)⟩

/-- Claim C6: executing a pdf_upload element with no filename key in config
yields status error and result "No PDF uploaded"; with a filename present it
yields status ready and the "PDF processed: ..." result. -/
theorem pdf_upload_execution (e : WorkflowElement) (ht : e.type = "pdf_upload") :
    (e.config.lookup "filename" = none →
      exec_element e = (.vStr "No PDF uploaded", "error")) ∧
    (∀ v, e.config.lookup "filename" = some v →
      exec_element e = (.vStr ("PDF processed: " ++ pyStr v), "ready")) := by
  constructor
  · intro hn; simp [exec_element, ht, hn]
  · intro v hv; simp [exec_element, ht, hv]

theorem pdf_upload_execution_witness :
    exec_element sample_pdf_bare = (.vStr "No PDF uploaded", "error") ∧
    exec_element sample_pdf_loaded = (.vStr "PDF processed: a.pdf", "ready") := by
  constructor
  · exact (pdf_upload_execution sample_pdf_bare rfl).1 rfl
  · exact (pdf_upload_execution sample_pdf_loaded rfl).2 (.vStr "a.pdf") rfl

/-- Claim C7 (amended): a text_input config update stores label and text in
config and sets status to ready exactly when the text is non-empty; an empty
text leaves the previous status untouched (it does not revert to pending). -/
theorem update_text_input_status (l v : String) (e : WorkflowElement) :
    (v ≠ "" → (update_text_input l v e).status = "ready") ∧
    (v = "" → (update_text_input l v e).status = e.status) ∧
    (update_text_input l v e).config = [("label", .vStr l), ("value", .vStr v)] := by
  refine ⟨?_, ?_, rfl⟩
  · intro hv; simp [update_text_input, hv]
  · intro hv; simp [update_text_input, hv]

theorem update_text_input_status_witness :
    (update_text_input "L" "hi" sample_text_pending).status = "ready" ∧
    (update_text_input "L" "" sample_text_pending).status = "pending" := by
  constructor
  · exact (update_text_input_status "L" "hi" sample_text_pending).1 (by decide)
  · exact (update_text_input_status "L" "" sample_text_pending).2.1 rfl

/-- Claim C7 fails as stated: updating an already-ready text_input element
with empty input text leaves its status at ready, not pending, because the
code only ever promotes the status and never reverts it. -/
theorem update_text_input_empty_keeps_ready :
    (update_text_input "Enter text" "" sample_text_ready).status = "ready" ∧
    ("ready" : String) ≠ "pending" := by
  exact ⟨rfl, by decide⟩

theorem valid_status_exec_element (e : WorkflowElement) :
    valid_status (exec_element e).2 = true := by
  unfold exec_element
  repeat' split
  all_goals rfl

theorem run_elements_statuses (es : List WorkflowElement) (acc : List (String × Value)) :
    ∀ e ∈ (run_elements es acc).1, valid_status e.status = true := by
  induction es generalizing acc with
  | nil => intro e h; simp [run_elements] at h
  | cons e rest ih =>
    intro e0 h0
    rw [run_elements] at h0
    rcases List.mem_cons.mp h0 with h1 | h1
    · subst h1; exact valid_status_exec_element e
    · exact ih _ e0 h1

theorem import_elements_statuses (ds : List ElementDict)
    (h : ∀ d ∈ ds, valid_status (d.status.getD "pending") = true) :
    ∀ k, ∀ e ∈ (import_elements ds k).1.1, valid_status e.status = true := by
  induction ds with
  | nil => intro k e he; simp [import_elements] at he
  | cons d rest ih =>
    intro k e he
    rw [import_elements] at he
    cases hdt : d.type with
    | none => rw [hdt] at he; simp at he
    | some t =>
      rw [hdt] at he
      cases hdi : d.id with
      | none => rw [hdi] at he; simp at he
      | some i =>
        rw [hdi] at he
        simp only [List.mem_cons] at he
        rcases he with he | he
        · subst he
          exact h d (List.mem_cons_self d rest)
        · exact ih (fun d0 hd0 => h d0 (List.mem_cons_of_mem d hd0)) _ e he

/-- Claim C5 (amended): membership of every status in the four-value
enumeration is preserved by adding an element, deleting by index, running
the workflow, a text_input config update and clearing; import establishes
it only under the proviso that every imported element's status (after the
pending default) lies in the enumeration, since import_workflow copies the
stored status field verbatim without validation. -/
theorem valid_status_invariant :
    (∀ t s, all_valid s.workflow_elements →
      all_valid (add_element_to_workflow t s).workflow_elements) ∧
    (∀ i s, all_valid s.workflow_elements →
      all_valid (remove_element i s).1.workflow_elements) ∧
    (∀ s, all_valid s.workflow_elements →
      all_valid (execute_workflow s).workflow_elements) ∧
    (∀ l v e, valid_status e.status = true →
      valid_status (update_text_input l v e).status = true) ∧
    (∀ s, all_valid (clear_workflow s).workflow_elements) ∧
    (∀ doc s, (∀ d ∈ doc.elements, valid_status (d.status.getD "pending") = true) →
      all_valid (import_workflow doc s).1.workflow_elements) := by
  refine ⟨?_, ?_, ?_, ?_, ?_, ?_⟩
  · intro t s hs e he
    rw [add_element_to_workflow] at he
    rcases List.mem_append.mp he with h1 | h1
    · exact hs e h1
    · simp only [List.mem_singleton] at h1; subst h1; rfl
  · intro i s hs e he
    rw [remove_element] at he
    split at he
    · exact hs e (List.mem_of_mem_eraseIdx he)
    · exact hs e he
  · intro s hs e he
    rw [execute_workflow] at he
    split at he
    · exact hs e he
    · exact run_elements_statuses _ _ e he
  · intro l v e he
    show valid_status (if v = "" then e.status else "ready") = true
    by_cases hv : v = ""
    · rw [if_pos hv]; exact he
    · rw [if_neg hv]; decide
  · intro s e he
    simp [clear_workflow] at he
  · intro doc s hdoc e he
    exact import_elements_statuses doc.elements hdoc s.next_uuid e he

theorem valid_status_invariant_witness :
    all_valid (add_element_to_workflow "timer" fresh_session).workflow_elements ∧
    all_valid (remove_element 0 fresh_session).1.workflow_elements ∧
    all_valid (execute_workflow fresh_session).workflow_elements ∧
    valid_status (update_text_input "L" "hi" sample_text_pending).status = true ∧
    all_valid (clear_workflow fresh_session).workflow_elements ∧
    all_valid (import_workflow (export_workflow "t" fresh_session)
      fresh_session).1.workflow_elements := by
  refine ⟨?_, ?_, ?_, ?_, ?_, ?_⟩
  · exact valid_status_invariant.1 "timer" fresh_session (by intro e he; simp [fresh_session] at he)
  · exact valid_status_invariant.2.1 0 fresh_session (by intro e he; simp [fresh_session] at he)
  · exact valid_status_invariant.2.2.1 fresh_session (by intro e he; simp [fresh_session] at he)
  · exact valid_status_invariant.2.2.2.1 "L" "hi" sample_text_pending (by decide)
  · exact valid_status_invariant.2.2.2.2.1 fresh_session
  · exact valid_status_invariant.2.2.2.2.2 (export_workflow "t" fresh_session) fresh_session
      (by intro d hd; simp [export_workflow, fresh_session] at hd)

/-- Claim C5 fails as stated: import_workflow copies the imported status
field verbatim, so importing a document whose element carries status
"banana" produces an element whose status is outside the four enumerated
values. -/
theorem import_status_unchecked_counterexample :
    (import_workflow sample_bad_status_doc fresh_session).1.workflow_elements =
      [{ id := "a", type := "timer", position := { x := 0, y := 0 },
         config := [], status := "banana", output := .vNull }] ∧
    valid_status "banana" = false := by
  exact ⟨rfl, by decide⟩

theorem import_elements_malformed (ds : List ElementDict)
    (h : ∃ d ∈ ds, wellformed_dict d = false) :
    ∀ k, (import_elements ds k).1.2.isSome = true ∧
      (import_elements ds k).1.1 =
        (import_elements (ds.takeWhile wellformed_dict) k).1.1 := by
  induction ds with
  | nil => simp at h
  | cons d rest ih =>
    intro k
    by_cases hw : wellformed_dict d = true
    · have hti : d.type.isSome = true ∧ d.id.isSome = true := by
        simpa [wellformed_dict] using hw
      obtain ⟨t, hdt⟩ := Option.isSome_iff_exists.mp hti.1
      obtain ⟨i, hdi⟩ := Option.isSome_iff_exists.mp hti.2
      obtain ⟨d0, hd0, hbad⟩ := h
      rcases List.mem_cons.mp hd0 with rfl | hmem
      · rw [hw] at hbad; cases hbad
      · have step := ih ⟨d0, hmem, hbad⟩
        rw [List.takeWhile_cons_of_pos hw]
        simp only [import_elements, hdt, hdi]
        exact ⟨(step _).1, congrArg _ (step _).2⟩
    · cases hdt : d.type with
      | none =>
        rw [List.takeWhile_cons_of_neg (by simp [wellformed_dict, hdt])]
        simp only [import_elements, hdt]
        constructor <;> trivial
      | some t =>
        cases hdi : d.id with
        | none =>
          rw [List.takeWhile_cons_of_neg (by simp [wellformed_dict, hdi])]
          simp only [import_elements, hdt, hdi]
          constructor <;> trivial
        | some i =>
          exact absurd (by simp [wellformed_dict, hdt, hdi]) hw

/-- Claim C8: importing a document in which some element lacks the required
id or type field produces a reported, non-fatal error, and the element
sequence is left at exactly the partial read, namely what importing the
longest well-formed prefix of the document would produce, with no
restoration of the prior sequence. -/
theorem import_workflow_malformed (doc : WorkflowDocument) (s : SessionState)
    (h : ∃ d ∈ doc.elements, d.id = none ∨ d.type = none) :
    (import_workflow doc s).2.isSome = true ∧
    (import_workflow doc s).1.workflow_elements =
      (import_workflow { doc with elements := doc.elements.takeWhile wellformed_dict }
        s).1.workflow_elements := by
  obtain ⟨d, hd, hc⟩ := h
  have hwf : wellformed_dict d = false := by
    rcases hc with h1 | h1 <;> simp [wellformed_dict, h1]
  have step := import_elements_malformed doc.elements ⟨d, hd, hwf⟩ s.next_uuid
  exact step

theorem import_workflow_malformed_witness :
    (import_workflow sample_malformed_doc fresh_session).2.isSome = true ∧
    (import_workflow sample_malformed_doc fresh_session).1.workflow_elements =
      (import_workflow
        { sample_malformed_doc with
            elements := sample_malformed_doc.elements.takeWhile wellformed_dict }
        fresh_session).1.workflow_elements := by
  exact import_workflow_malformed sample_malformed_doc fresh_session
    ⟨{ id := none, type := some "chart", position := none,
       config := none, status := none, output := none },
     by simp [sample_malformed_doc], Or.inl rfl⟩

theorem dict_insert_fresh (m : List (String × Value)) (k : String) (v : Value)
    (h : m.any (fun p => p.1 = k) = false) :
    dict_insert m k v = m ++ [(k, v)] := by
  simp [dict_insert, h]

theorem run_elements_keys (es : List WorkflowElement) (acc : List (String × Value))
    (hnd : (es.map (fun e => e.id)).Nodup)
    (hfresh : ∀ e ∈ es, acc.any (fun p => p.1 = e.id) = false) :
    (run_elements es acc).2.map Prod.fst = acc.map Prod.fst ++ es.map (fun e => e.id) := by
  induction es generalizing acc with
  | nil => simp [run_elements]
  | cons e rest ih =>
    simp only [run_elements]
    have hfe : acc.any (fun p => p.1 = e.id) = false := hfresh e (List.mem_cons_self e rest)
    rw [dict_insert_fresh acc e.id (exec_element e).1 hfe]
    have hpair : e.id ∉ rest.map (fun y => y.id) ∧ (rest.map (fun y => y.id)).Nodup := by
      rw [List.map_cons] at hnd
      exact List.nodup_cons.mp hnd
    have hfresh2 : ∀ x ∈ rest,
        (acc ++ [(e.id, (exec_element e).1)]).any (fun p => p.1 = x.id) = false := by
      intro x hx
      rw [List.any_append]
      have h1 : acc.any (fun p => p.1 = x.id) = false := hfresh x (List.mem_cons_of_mem e hx)
      have h2 : e.id ≠ x.id := fun hc => hpair.1 (hc ▸ List.mem_map_of_mem (fun y => y.id) hx)
      simp [h1, h2]
    rw [ih (acc ++ [(e.id, (exec_element e).1)]) hpair.2 hfresh2]
    simp

/-- Claim C1 (amended): on a session whose element sequence is non-empty and
whose element ids are pairwise distinct, running stores a results mapping
whose keys are exactly the element ids in document order (hence exactly one
entry per element), and the stored mapping is independent of the previously
stored results. -/
theorem execute_workflow_results (s : SessionState)
    (hne : s.workflow_elements ≠ [])
    (hnd : (s.workflow_elements.map (fun e => e.id)).Nodup) :
    (execute_workflow s).execution_results.map Prod.fst =
      s.workflow_elements.map (fun e => e.id) ∧
    (execute_workflow s).execution_results.length = s.workflow_elements.length ∧
    ∀ r, (execute_workflow { s with execution_results := r }).execution_results =
      (execute_workflow s).execution_results := by
  have hempty : s.workflow_elements.isEmpty = false := by
    cases h : s.workflow_elements with
    | nil => exact absurd h hne
    | cons a l => rfl
  have hkeys : (execute_workflow s).execution_results.map Prod.fst =
      s.workflow_elements.map (fun e => e.id) := by
    simp only [execute_workflow, hempty, Bool.false_eq_true, if_false]
    simpa using run_elements_keys s.workflow_elements [] hnd (by intro e he; rfl)
  refine ⟨hkeys, ?_, ?_⟩
  · have := congrArg List.length hkeys
    simpa using this
  · intro r
    simp only [execute_workflow, hempty, Bool.false_eq_true, if_false]

theorem execute_workflow_results_witness :
    (execute_workflow sample_run_session).execution_results.map Prod.fst =
      sample_run_session.workflow_elements.map (fun e => e.id) ∧
    (execute_workflow sample_run_session).execution_results.length =
      sample_run_session.workflow_elements.length ∧
    (execute_workflow { sample_run_session with execution_results := [("old", .vNull)] }).execution_results =
      (execute_workflow sample_run_session).execution_results := by
  obtain ⟨h1, h2, h3⟩ := execute_workflow_results sample_run_session (by decide) (by decide)
  exact ⟨h1, h2, h3 [("old", .vNull)]⟩

/-- Claim C1 fails as stated: with zero elements, execute_workflow warns and
returns without touching the stored results, so a stale non-empty mapping
survives instead of being replaced by an empty one; and with two elements
sharing an id, the results dict holds one entry for two elements. -/
theorem execute_workflow_claim_counterexample :
    execute_workflow sample_stale_session = sample_stale_session ∧
    sample_stale_session.execution_results ≠ [] ∧
    (execute_workflow sample_dup_session).execution_results.length = 1 ∧
    sample_dup_session.workflow_elements.length = 2 := by
  exact ⟨rfl, by decide, rfl, rfl⟩

theorem foldl_add_elements (tys : List String) (s : SessionState) :
    (tys.foldl (fun st t => add_element_to_workflow t st) s).workflow_elements =
      s.workflow_elements ++ added_elements s.workflow_elements.length s.next_uuid tys := by
  induction tys generalizing s with
  | nil => simp [added_elements]
  | cons t ts ih =>
    rw [List.foldl_cons, ih (add_element_to_workflow t s)]
    simp [add_element_to_workflow, added_elements, new_element]

theorem added_elements_types (pos idx : Nat) (tys : List String) :
    (added_elements pos idx tys).map (fun e => e.type) = tys := by
  induction tys generalizing pos idx with
  | nil => rfl
  | cons t ts ih => simp [added_elements, new_element, ih]

theorem added_elements_id_shape (pos idx : Nat) (tys : List String) :
    ∀ e ∈ added_elements pos idx tys, ∃ k, e.id = mkUuid (idx + k) := by
  induction tys generalizing pos idx with
  | nil => intro e he; simp [added_elements] at he
  | cons t ts ih =>
    intro e he
    rcases List.mem_cons.mp he with rfl | hm
    · exact ⟨0, rfl⟩
    · obtain ⟨k, hk⟩ := ih (pos + 1) (idx + 1) e hm
      exact ⟨k + 1, by rw [hk]; exact congrArg mkUuid (by omega)⟩

theorem added_elements_ids_nodup (pos idx : Nat) (tys : List String) :
    ((added_elements pos idx tys).map (fun e => e.id)).Nodup := by
  induction tys generalizing pos idx with
  | nil => simp [added_elements]
  | cons t ts ih =>
    simp only [added_elements, List.map_cons, List.nodup_cons]
    constructor
    · intro hmem
      obtain ⟨e, he, heq⟩ := List.mem_map.mp hmem
      obtain ⟨k, hk⟩ := added_elements_id_shape (pos + 1) (idx + 1) ts e he
      have h2 : mkUuid (idx + 1 + k) = mkUuid idx := by rw [← hk, heq]; rfl
      have := mkUuid_injective _ _ h2
      omega
    · exact ih (pos + 1) (idx + 1)

theorem added_elements_pending (pos idx : Nat) (tys : List String) :
    ∀ e ∈ added_elements pos idx tys, e.status = "pending" ∧ e.config = [] := by
  induction tys generalizing pos idx with
  | nil => intro e he; simp [added_elements] at he
  | cons t ts ih =>
    intro e he
    rcases List.mem_cons.mp he with rfl | hm
    · exact ⟨rfl, rfl⟩
    · exact ih (pos + 1) (idx + 1) e hm

theorem added_elements_positions (pos idx : Nat) (tys : List String) :
    ∀ i e, (added_elements pos idx tys).get? i = some e →
      e.position = { x := 100 * ((pos + i : Nat) : Int), y := 50 } := by
  induction tys generalizing pos idx with
  | nil => intro i e he; simp [added_elements] at he
  | cons t ts ih =>
    intro i e he
    cases i with
    | zero =>
      rw [show added_elements pos idx (t :: ts) =
          new_element pos idx t :: added_elements (pos + 1) (idx + 1) ts from rfl,
        List.get?_cons_zero, Option.some_inj] at he
      rw [← he]
      rfl
    | succ i =>
      rw [show added_elements pos idx (t :: ts) =
          new_element pos idx t :: added_elements (pos + 1) (idx + 1) ts from rfl,
        List.get?_cons_succ] at he
      have hstep := ih (pos + 1) (idx + 1) i e he
      have harith : pos + 1 + i = pos + (i + 1) := by omega
      rw [harith] at hstep
      exact hstep

/-- Claim C9: a sequence of add-element calls from the fresh session always
succeeds and yields elements in insertion order (the type projection is the
click sequence itself) with pairwise-distinct ids, each created with status
pending and empty config, and each positioned after all elements present at
its insertion (x grows by 100 per index, y fixed at 50). -/
theorem add_element_sequence (tys : List String) :
    ((build_workflow tys).workflow_elements.map (fun e => e.type)) = tys ∧
    ((build_workflow tys).workflow_elements.map (fun e => e.id)).Nodup ∧
    (∀ e ∈ (build_workflow tys).workflow_elements, e.status = "pending" ∧ e.config = []) ∧
    ∀ i e, (build_workflow tys).workflow_elements.get? i = some e →
      e.position = { x := 100 * (i : Int), y := 50 } := by
  have hb : (build_workflow tys).workflow_elements = added_elements 0 0 tys := by
    rw [build_workflow, foldl_add_elements tys fresh_session]
    rfl
  refine ⟨?_, ?_, ?_, ?_⟩
  · rw [hb]; exact added_elements_types 0 0 tys
  · rw [hb]; exact added_elements_ids_nodup 0 0 tys
  · rw [hb]; exact added_elements_pending 0 0 tys
  · intro i e he
    rw [hb] at he
    have := added_elements_positions 0 0 tys i e he
    simpa using this

theorem add_element_sequence_witness :
    ((build_workflow ["timer", "chart"]).workflow_elements.map (fun e => e.type)) =
      ["timer", "chart"] ∧
    ((build_workflow ["timer", "chart"]).workflow_elements.map (fun e => e.id)).Nodup ∧
    (new_element 1 1 "chart").position = { x := 100, y := 50 } := by
  obtain ⟨h1, h2, h3, h4⟩ := add_element_sequence ["timer", "chart"]
  refine ⟨h1, h2, ?_⟩
  have := h4 1 (new_element 1 1 "chart") rfl
  simpa using this
